import Mathlib

/-!
Verification of the Qadam test-taking core against its specification.

The definitions below are shallow embeddings of the TypeScript source:
  - client/src/pages/test-page.tsx        (test session, timer, autosave, submit)
  - client/src/components/mobile-test-navigation.tsx (mobile review rendering)
  - shared schema (drizzle table definitions)

Machine integers of the source are modelled as Int or Nat; JS objects keyed
by question id are modelled as functions String to Option.
-/

namespace Qadam

/-- A stored answer row: `answers` table of the drizzle schema
(`{id, questionId, text, isCorrect, order}`; `questionId` and `order` are
irrelevant to the properties below and omitted from the embedding). -/
structure Answer where
  id : String
  text : String
  isCorrect : Bool
deriving DecidableEq, Repr

/-- A question together with its answer rows (`questions` table joined with
its `answers`). -/
structure Question where
  id : String
  text : String
  answers : List Answer
deriving DecidableEq, Repr

/-- The value stored for one question in the client `userAnswers` record:
TypeScript type `string | string[]`. -/
inductive UserAnswer where
  | single (answerId : String)
  | multiple (answerIds : List String)
deriving DecidableEq, Repr

/-- The client `userAnswers` object, `Record<string, string | string[]>`:
a JS object keyed by question id. -/
def AnswersMap : Type := String → Option UserAnswer

/-- The initial `userAnswers` state `{}` (test-page.tsx line 89). -/
def emptyAnswers : AnswersMap := fun _ => none

/-- JS object update `{...prev, [questionId]: v}`. -/
def setAnswer (prev : AnswersMap) (questionId : String) (v : UserAnswer) : AnswersMap :=
  fun x => if x = questionId then some v else prev x

/-- The expression `Array.isArray(current) ? current : []` of
`handleAnswerSelect` (test-page.tsx line 613). -/
def currentArrayOf : Option UserAnswer → List String
  | some (UserAnswer.multiple l) => l
  | _ => []

/-- `handleAnswerSelect` (test-page.tsx lines 609-635): every question is
treated as a multi-select toggle over an array capped at 3 ids. -/
def handleAnswerSelect (prev : AnswersMap) (questionId answerId : String) : AnswersMap :=
  let currentArray := currentArrayOf (prev questionId)
  if currentArray.contains answerId then
    setAnswer prev questionId
      (UserAnswer.multiple (currentArray.filter (fun id => id != answerId)))
  else
    let newArray := currentArray ++ [answerId]
    if newArray.length ≤ 3 then
      setAnswer prev questionId (UserAnswer.multiple newArray)
    else
      prev

/-- The ids currently held for a question, viewed as the array the toggle
logic operates on. -/
def selectionOf (m : AnswersMap) (q : String) : List String :=
  currentArrayOf (m q)

/-- A sequence of answer toggles `(questionId, answerId)` applied in order. -/
def applyToggles (m : AnswersMap) (ops : List (String × String)) : AnswersMap :=
  ops.foldl (fun acc op => handleAnswerSelect acc op.fst op.snd) m

/-! ### Countdown timer (test-page.tsx lines 166-197)

One mounted test session is modelled as a state machine. `effectRun` is one
execution of the timer `useEffect` body, `cleanupRun` its cleanup function,
and `tick` one firing of the interval callback. Within one mounted session
the refs (`timerStartedRef`, `timerRef`) persist across effect re-runs. -/

/-- The mutable state visible to the timer effect: `timerStartedRef.current`,
whether `timerRef.current` holds a live interval, the `timeLeft` state, the
number of `handleTimeUp` invocations scheduled, and a ghost counter of
`setInterval` calls. -/
structure TimerState where
  timerStarted : Bool
  intervalActive : Bool
  timeLeft : Int
  timeUpCalls : Nat
  startCount : Nat
deriving DecidableEq, Repr

/-- Events that can hit the timer state machine of one mounted session. -/
inductive TimerEvent where
  | effectRun
  | cleanupRun
  | tick
deriving DecidableEq, Repr

/-- The interval callback's `newValue = prev <= 1 ? 0 : prev - 1`
(test-page.tsx line 179). -/
def tickValue (prev : Int) : Int :=
  if prev ≤ 1 then 0 else prev - 1

/-- One step of the timer state machine, transcribing the effect body
(guard on `timerStartedRef.current`, guard on `isReviewMode`, then
`setInterval`), the cleanup (`clearInterval`), and the interval callback
(compute `tickValue`; on reaching 0 the interval is cleared and
`handleTimeUp` scheduled). A `tick` can only fire while the interval is
live. -/
def timerStep (isReviewMode : Bool) (s : TimerState) : TimerEvent → TimerState
  | TimerEvent.effectRun =>
    if s.timerStarted then s
    else if isReviewMode then s
    else { s with timerStarted := true, intervalActive := true,
                  startCount := s.startCount + 1 }
  | TimerEvent.cleanupRun =>
    { s with intervalActive := false }
  | TimerEvent.tick =>
    if s.intervalActive then
      if tickValue s.timeLeft = 0 then
        { s with timeLeft := tickValue s.timeLeft, intervalActive := false,
                 timeUpCalls := s.timeUpCalls + 1 }
      else
        { s with timeLeft := tickValue s.timeLeft }
    else s

/-- The state of a freshly mounted session: refs start null/false and
`timeLeft` starts from the mount-time value `t0`. -/
def initTimer (t0 : Int) : TimerState :=
  { timerStarted := false, intervalActive := false, timeLeft := t0,
    timeUpCalls := 0, startCount := 0 }

/-- Run a sequence of events against the timer state machine. -/
def runTimer (isReviewMode : Bool) (evs : List TimerEvent) (s : TimerState) : TimerState :=
  evs.foldl (timerStep isReviewMode) s

/-- The inductive invariant of the timer state machine: time never
negative, exactly one `setInterval` call once the guard ref is set, a live
interval implies the guard ref is set, `handleTimeUp` scheduled at most
once, and once it has been scheduled the interval is dead while the guard
ref stays set (so no further tick can ever fire it again). -/
def TimerInv (s : TimerState) : Prop :=
  0 ≤ s.timeLeft
  ∧ s.startCount = (if s.timerStarted then 1 else 0)
  ∧ (s.intervalActive = true → s.timerStarted = true)
  ∧ s.timeUpCalls ≤ 1
  ∧ (1 ≤ s.timeUpCalls → s.intervalActive = false ∧ s.timerStarted = true)

/-! ### Session save / restore (test-page.tsx lines 262-272 and 304-336) -/

/-- The fixed timer budget: 240 minutes in seconds (test-page.tsx line 94). -/
def budgetSeconds : Int := 240 * 60

/-- Status of a test session row. -/
inductive TestSessionStatus where
  | draft
  | completed
  | abandoned
deriving DecidableEq, Repr

/-- The part of a persisted test session that `loadProgress` reads back:
`{status, userAnswers, timeSpent}`. -/
structure SavedSession where
  status : TestSessionStatus
  userAnswers : AnswersMap
  timeSpent : Int

/-- `manageTestSession('save')` (test-page.tsx lines 262-272): the autosave
payload persists `timeSpent = (240 * 60) - timeLeft` together with the
current `userAnswers`; the session stays a draft. -/
def saveSession (timeLeft : Int) (userAnswers : AnswersMap) : SavedSession :=
  { status := TestSessionStatus.draft,
    userAnswers := userAnswers,
    timeSpent := budgetSeconds - timeLeft }

/-- The client state `loadProgress` produces: the restored `userAnswers`
and the re-armed `timeLeft`. -/
structure RestoredState where
  userAnswers : AnswersMap
  timeLeft : Int

/-- `loadProgress` (test-page.tsx lines 304-336): if an active draft session
exists, resume from its `userAnswers` and set
`timeLeft = Math.max(0, 240 * 60 - timeSpent)`; otherwise create a fresh
session with empty answers and the full budget. -/
def loadProgress (activeSession : Option SavedSession) : RestoredState :=
  match activeSession with
  | some s =>
    if s.status = TestSessionStatus.draft then
      { userAnswers := s.userAnswers,
        timeLeft := max 0 (budgetSeconds - s.timeSpent) }
    else
      { userAnswers := emptyAnswers, timeLeft := budgetSeconds }
  | none => { userAnswers := emptyAnswers, timeLeft := budgetSeconds }

/-! ### Submission mutation (test-page.tsx lines 385-427) -/

/-- An offline pending-sync record as built by the submit fallback
(test-page.tsx lines 409-418); the synthetic `id` and `testId` strings are
irrelevant to the claims and omitted. -/
structure PendingSyncRecord where
  variantId : String
  answers : AnswersMap
  timeSpent : Int
  completedAt : Int
  syncStatus : String
  syncAttempts : Nat

/-- Outcome of `submitTestMutation.mutationFn` as seen by the caller. -/
inductive SubmitOutcome where
  | serverResponse
  | offlineSaved
  | thrown
deriving DecidableEq, Repr

/-- The `timeSpent` value the mutation submits: `(240 * 60) - timeLeft`,
computed identically for the network payload (line 396) and the offline
record (line 414). -/
def submittedTimeSpent (timeLeft : Int) : Int :=
  budgetSeconds - timeLeft

/-- `submitTestMutation.mutationFn` (test-page.tsx lines 385-427): try the
network when online; on any failure (offline, or the request throwing),
public tests rethrow while authenticated tests persist one pending-sync
record via `saveCompletedTest` and return the `{offline: true}` outcome.
Returns the outcome together with the list of records written to the
offline store during the call. -/
def submitTestMutationFn (isOnline requestFails isPublicTest : Bool)
    (variantId : String) (answers : AnswersMap) (timeLeft : Int) (now : Int) :
    SubmitOutcome × List PendingSyncRecord :=
  if isOnline && !requestFails then
    (SubmitOutcome.serverResponse, [])
  else if isPublicTest then
    (SubmitOutcome.thrown, [])
  else
    (SubmitOutcome.offlineSaved,
      [{ variantId := variantId,
         answers := answers,
         timeSpent := submittedTimeSpent timeLeft,
         completedAt := now,
         syncStatus := "pending",
         syncAttempts := 0 }])

/-! ### Review-mode rendering (test-page.tsx lines 820-847,
mobile-test-navigation.tsx lines 290-313) -/

/-- An answer as carried by a review payload: `isCorrect?: boolean`, so the
flag may be absent. -/
structure ReviewAnswer where
  id : String
  text : String
  isCorrect : Option Bool
deriving DecidableEq, Repr

/-- JS truthiness of the optional `isCorrect` flag: `undefined` is falsy. -/
def truthy : Option Bool → Bool
  | some b => b
  | none => false

/-- The four visual states review mode can assign to an answer. -/
inductive ReviewState where
  | selectedCorrect
  | selectedIncorrect
  | unselectedCorrect
  | unselectedIncorrect
deriving DecidableEq, Repr

/-- The desktop `isSelected` computation (test-page.tsx lines 827-829):
`Array.isArray(userAnswer) ? userAnswer.includes(answer.id) : userAnswer === answer.id`. -/
def desktopIsSelected (userAnswer : Option UserAnswer) (answerId : String) : Bool :=
  match userAnswer with
  | some (UserAnswer.multiple ids) => ids.contains answerId
  | some (UserAnswer.single s) => s == answerId
  | none => false

/-- The mobile `isSelected` computation (mobile-test-navigation.tsx
lines 292-295), transcribed from that file. -/
def mobileIsSelected (userAnswer : Option UserAnswer) (answerId : String) : Bool :=
  match userAnswer with
  | some (UserAnswer.multiple ids) => ids.contains answerId
  | some (UserAnswer.single s) => s == answerId
  | none => false

/-- The desktop review-mode branch chain (test-page.tsx lines 833-842). -/
def desktopReviewState (isSelected : Bool) (isCorrect : Option Bool) : ReviewState :=
  if isSelected && truthy isCorrect then ReviewState.selectedCorrect
  else if isSelected && !truthy isCorrect then ReviewState.selectedIncorrect
  else if !isSelected && truthy isCorrect then ReviewState.unselectedCorrect
  else ReviewState.unselectedIncorrect

/-- The mobile review-mode branch chain (mobile-test-navigation.tsx
lines 299-308), transcribed from that file. -/
def mobileReviewState (isSelected : Bool) (isCorrect : Option Bool) : ReviewState :=
  if isSelected && truthy isCorrect then ReviewState.selectedCorrect
  else if isSelected && !truthy isCorrect then ReviewState.selectedIncorrect
  else if !isSelected && truthy isCorrect then ReviewState.unselectedCorrect
  else ReviewState.unselectedIncorrect

/-! ### Guest review payload (test-page.tsx lines 458-483) -/

/-- A question in a review payload. -/
structure ReviewQuestion where
  id : String
  text : String
  answers : List ReviewAnswer
deriving DecidableEq, Repr

/-- One subject entry of a test-data payload. -/
structure ReviewSubject where
  subjectId : String
  subjectName : String
  questions : List ReviewQuestion
deriving DecidableEq, Repr

/-- `guestTestDataWithCorrectFlags` (test-page.tsx lines 461-473): the
client rebuilds the test data for a guest result by mapping every answer of
every question to `{...answer, isCorrect: false}`. -/
def guestTestDataWithCorrectFlags (testData : List ReviewSubject) : List ReviewSubject :=
  testData.map (fun subject =>
    { subject with questions := subject.questions.map (fun question =>
        { question with answers := question.answers.map (fun answer =>
            { answer with isCorrect := some false }) }) })

/-! ### Persisted TestResult shape (shared schema, `testResults` table) -/

/-- The property names of the persisted `testResults` table, from the
drizzle schema (shared schema lines 105-115): there is no `totalPoints`
column. -/
def testResultsColumns : List String :=
  ["id", "userId", "variantId", "score", "totalQuestions", "percentage",
   "timeSpent", "answers", "completedAt"]

/-- The field names the specification asserts for a persisted TestResult
(spec section 3, TestResult). Stated from the spec for comparison with
`testResultsColumns`, which is from the source. -/
def specTestResultFields : List String :=
  ["id", "userId", "variantId", "score", "totalQuestions", "totalPoints",
   "percentage", "timeSpent", "answers", "completedAt"]

/-! ### Scoring Engine (modelled from the spec)

The route handlers for `POST /api/test-results` and
`POST /api/public/test-results`, which contain the server-side Scoring
Engine and the percentage computation, are not among the provided source
files (only the schema, the storage layer and the client callers are).
The two definitions below are therefore modelled from the spec. -/

/-- Result of scoring one question. -/
inductive ScoreOutcome where
  | ok (earned possible : Nat)
  | integrityError (answerCount : Nat)
deriving DecidableEq, Repr

/-- Modelled from the spec: the Scoring Engine `score(question, userAnswer)`
of spec section 4.1, whose server-side implementation (the
`POST /api/test-results` handler) is missing from the provided sources.
A zero-answer question contributes 0/0; 8 answers is multi-choice worth 2,
earned in full iff the selected subset contains every correct answer and no
incorrect one; 5 answers is single-choice worth 1, earned iff the single
submitted id matches a correct answer; any other answer count is a
data-integrity error. -/
def scoreQuestion (q : Question) (userAnswer : Option UserAnswer) : ScoreOutcome :=
  if q.answers.length = 0 then ScoreOutcome.ok 0 0
  else if q.answers.length = 8 then
    match userAnswer with
    | some (UserAnswer.multiple ids) =>
      let selected := q.answers.filter (fun a => ids.contains a.id)
      if (q.answers.filter (fun a => a.isCorrect)).all (fun a => ids.contains a.id)
          && selected.all (fun a => a.isCorrect) then
        ScoreOutcome.ok 2 2
      else
        ScoreOutcome.ok 0 2
    | _ => ScoreOutcome.ok 0 2
  else if q.answers.length = 5 then
    match userAnswer with
    | some (UserAnswer.single aid) =>
      if q.answers.any (fun a => a.id == aid && a.isCorrect) then
        ScoreOutcome.ok 1 1
      else
        ScoreOutcome.ok 0 1
    | _ => ScoreOutcome.ok 0 1
  else ScoreOutcome.integrityError q.answers.length

/-- The ids of a question's correct answers. -/
def correctIds (q : Question) : List String :=
  (q.answers.filter (fun a => a.isCorrect)).map Answer.id

/-- Modelled from the spec: `percentage = totalPoints > 0 ?
earnedPoints / totalPoints * 100 : 0` (spec section 4.4 step 4); the route
handler computing it is missing from the provided sources. -/
def computePercentage (earnedPoints totalPoints : Nat) : Rat :=
  if 0 < totalPoints then (earnedPoints : Rat) / (totalPoints : Rat) * 100 else 0

/-- A concrete 8-answer question with exactly 3 correct answers, used to
witness C1. -/
def q8 : Question :=
  { id := "Q1", text := "t",
    answers :=
      [{ id := "x", text := "", isCorrect := true },
       { id := "y", text := "", isCorrect := true },
       { id := "z", text := "", isCorrect := true },
       { id := "w1", text := "", isCorrect := false },
       { id := "w2", text := "", isCorrect := false },
       { id := "w3", text := "", isCorrect := false },
       { id := "w4", text := "", isCorrect := false },
       { id := "w5", text := "", isCorrect := false }] }

/-! ## Theorems -/

/-- Claim C9: in review mode, every answer is assigned exactly one of four
mutually exclusive states fully determined by the pair (selected by the
learner, `isCorrect`): selected-and-correct, selected-and-incorrect,
unselected-but-correct, unselected-and-incorrect; and the desktop and the
mobile renderer assign the same state to the same input. -/
theorem C9_review_state_mapping :
    (∀ (ua : Option UserAnswer) (aid : String) (ic : Option Bool),
      desktopReviewState (desktopIsSelected ua aid) ic
        = mobileReviewState (mobileIsSelected ua aid) ic)
    ∧ (∀ (sel : Bool) (ic : Option Bool),
        (desktopReviewState sel ic = ReviewState.selectedCorrect
          ↔ sel = true ∧ truthy ic = true)
        ∧ (desktopReviewState sel ic = ReviewState.selectedIncorrect
          ↔ sel = true ∧ truthy ic = false)
        ∧ (desktopReviewState sel ic = ReviewState.unselectedCorrect
          ↔ sel = false ∧ truthy ic = true)
        ∧ (desktopReviewState sel ic = ReviewState.unselectedIncorrect
          ↔ sel = false ∧ truthy ic = false)) := by
  refine ⟨fun ua aid ic => rfl, ?_⟩
  decide

/-- Claim C10: in the review payload the client builds for a guest result,
every answer of every question carries `isCorrect = false`; consequently the
guest review renders every selected answer as selected-and-incorrect and
every unselected answer as unselected-and-incorrect, and never renders a
"correct" state. -/
theorem C10_guest_flags_never_correct (testData : List ReviewSubject) :
    (∀ s ∈ guestTestDataWithCorrectFlags testData, ∀ q ∈ s.questions,
      ∀ a ∈ q.answers, a.isCorrect = some false)
    ∧ (∀ s ∈ guestTestDataWithCorrectFlags testData, ∀ q ∈ s.questions,
        ∀ a ∈ q.answers, ∀ sel : Bool,
          desktopReviewState sel a.isCorrect
            = (if sel then ReviewState.selectedIncorrect
               else ReviewState.unselectedIncorrect)
          ∧ desktopReviewState sel a.isCorrect ≠ ReviewState.selectedCorrect
          ∧ desktopReviewState sel a.isCorrect ≠ ReviewState.unselectedCorrect) := by
  have hflag : ∀ s ∈ guestTestDataWithCorrectFlags testData, ∀ q ∈ s.questions,
      ∀ a ∈ q.answers, a.isCorrect = some false := by
    intro s hs q hq a ha
    simp only [guestTestDataWithCorrectFlags, List.mem_map] at hs
    obtain ⟨s0, _, rfl⟩ := hs
    simp only [List.mem_map] at hq
    obtain ⟨q0, _, rfl⟩ := hq
    simp only [List.mem_map] at ha
    obtain ⟨a0, _, rfl⟩ := ha
    rfl
  refine ⟨hflag, ?_⟩
  intro s hs q hq a ha sel
  rw [hflag s hs q hq a ha]
  cases sel <;> exact ⟨rfl, by decide, by decide⟩

/-- Witness for C10 at a one-subject, one-question, one-answer payload
whose answer was actually correct: the rebuilt guest payload still carries
`isCorrect = false`. -/
theorem C10_guest_flags_never_correct_witness :
    ({ id := "aa", text := "t", isCorrect := some false } : ReviewAnswer).isCorrect
      = some false :=
  (C10_guest_flags_never_correct
      [{ subjectId := "s", subjectName := "S",
         questions := [{ id := "qq", text := "t",
                         answers := [{ id := "aa", text := "t", isCorrect := some true }] }] }]).1
    { subjectId := "s", subjectName := "S",
      questions := [{ id := "qq", text := "t",
                      answers := [{ id := "aa", text := "t", isCorrect := some false }] }] }
    (by decide)
    { id := "qq", text := "t",
      answers := [{ id := "aa", text := "t", isCorrect := some false }] }
    (by decide)
    { id := "aa", text := "t", isCorrect := some false }
    (by decide)

/-- Claim C7: a guest/public-variant submission that cannot reach the
network (client offline, or the request failing) surfaces the error to the
caller and writes no pending-sync record to the offline store. -/
theorem C7_public_submit_never_queued (isOnline requestFails : Bool)
    (variantId : String) (answers : AnswersMap) (timeLeft now : Int)
    (hfail : isOnline = false ∨ requestFails = true) :
    submitTestMutationFn isOnline requestFails true variantId answers timeLeft now
      = (SubmitOutcome.thrown, []) := by
  rcases hfail with h | h <;> subst h <;> simp [submitTestMutationFn]

/-- Witness for C7 at a concrete offline guest submission. -/
theorem C7_public_submit_never_queued_witness :
    submitTestMutationFn false false true "v1" emptyAnswers 100 0
      = (SubmitOutcome.thrown, []) :=
  C7_public_submit_never_queued false false "v1" emptyAnswers 100 0 (Or.inl rfl)

/-- Claim C8: an authenticated submission whose network attempt fails (or
with connectivity known down) persists exactly one pending-sync record
carrying the submitted `variantId`, `answers` and `timeSpent` plus a
`completedAt` timestamp, and the caller receives the distinguishable
offline outcome rather than a success. -/
theorem C8_authenticated_offline_queue (isOnline requestFails : Bool)
    (variantId : String) (answers : AnswersMap) (timeLeft now : Int)
    (hfail : isOnline = false ∨ requestFails = true) :
    submitTestMutationFn isOnline requestFails false variantId answers timeLeft now
      = (SubmitOutcome.offlineSaved,
          [{ variantId := variantId,
             answers := answers,
             timeSpent := submittedTimeSpent timeLeft,
             completedAt := now,
             syncStatus := "pending",
             syncAttempts := 0 }])
    ∧ SubmitOutcome.offlineSaved ≠ SubmitOutcome.serverResponse := by
  refine ⟨?_, by decide⟩
  rcases hfail with h | h <;> subst h <;> simp [submitTestMutationFn]

/-- Witness for C8 at a concrete offline authenticated submission. -/
theorem C8_authenticated_offline_queue_witness :
    submitTestMutationFn false false false "v1" emptyAnswers 100 7
      = (SubmitOutcome.offlineSaved,
          [{ variantId := "v1",
             answers := emptyAnswers,
             timeSpent := submittedTimeSpent 100,
             completedAt := 7,
             syncStatus := "pending",
             syncAttempts := 0 }]) :=
  (C8_authenticated_offline_queue false false "v1" emptyAnswers 100 7 (Or.inl rfl)).1

/-- Claim C5: saving a draft and then restoring it reproduces the same
answers map, and re-arms the countdown with
`max 0 (budget - timeSpent)` — never below 0 and not the full budget —
which equals the saved `timeLeft` whenever that was within the budget. -/
theorem C5_autosave_roundtrip (timeLeft : Int) (userAnswers : AnswersMap)
    (h0 : 0 ≤ timeLeft) (hb : timeLeft ≤ budgetSeconds) :
    (loadProgress (some (saveSession timeLeft userAnswers))).userAnswers = userAnswers
    ∧ (∀ s : SavedSession, s.status = TestSessionStatus.draft →
        (loadProgress (some s)).timeLeft = max 0 (budgetSeconds - s.timeSpent)
        ∧ 0 ≤ (loadProgress (some s)).timeLeft)
    ∧ (loadProgress (some (saveSession timeLeft userAnswers))).timeLeft = timeLeft := by
  refine ⟨rfl, ?_, ?_⟩
  · intro s hs
    constructor
    · simp [loadProgress, hs]
    · simp only [loadProgress, hs, if_pos]
      exact le_max_left 0 _
  · simp only [loadProgress, saveSession, if_pos]
    have h : budgetSeconds - (budgetSeconds - timeLeft) = timeLeft := by ring
    rw [h, max_eq_right h0]

/-- Witness for C5 at a concrete draft. -/
theorem C5_autosave_roundtrip_witness :
    (0 : Int) ≤ 100 ∧ (100 : Int) ≤ budgetSeconds
    ∧ (loadProgress (some (saveSession 100 emptyAnswers))).userAnswers = emptyAnswers
    ∧ (loadProgress (some (saveSession 100 emptyAnswers))).timeLeft = 100 :=
  ⟨by decide, by decide,
    (C5_autosave_roundtrip 100 emptyAnswers (by decide) (by decide)).1,
    (C5_autosave_roundtrip 100 emptyAnswers (by decide) (by decide)).2.2⟩

/-- Counterexample to claim C6: the spec-asserted field `totalPoints` is not
among the persisted columns of the `testResults` table. -/
theorem C6_counterexample_no_totalPoints_column :
    "totalPoints" ∈ specTestResultFields ∧ "totalPoints" ∉ testResultsColumns := by
  decide

/-- Claim C6 as amended: a persisted TestResult has the shape
`{id, userId, variantId, score, totalQuestions, percentage, timeSpent,
answers, completedAt}` — every spec-asserted field except `totalPoints`,
which is not persisted — and the (spec-modelled) percentage equals
`earnedPoints / totalPoints * 100` guarded so that `totalPoints = 0` gives
percentage 0. -/
theorem C6_amended_shape_and_percentage :
    ("totalPoints" ∉ testResultsColumns)
    ∧ (∀ f ∈ specTestResultFields, f ≠ "totalPoints" → f ∈ testResultsColumns)
    ∧ (∀ earnedPoints totalPoints : Nat,
        (totalPoints = 0 → computePercentage earnedPoints totalPoints = 0)
        ∧ (0 < totalPoints →
            computePercentage earnedPoints totalPoints * (totalPoints : Rat)
              = (earnedPoints : Rat) * 100)) := by
  refine ⟨by decide, by decide, ?_⟩
  intro earnedPoints totalPoints
  constructor
  · intro h
    simp [computePercentage, h]
  · intro h
    have hne : (totalPoints : Rat) ≠ 0 := by
      exact_mod_cast Nat.pos_iff_ne_zero.mp h
    simp only [computePercentage, if_pos h]
    field_simp

/-- Witness for C6 as amended, at the `userId` field and at concrete point
totals 3 of 3 and 0 of 0. -/
theorem C6_amended_shape_and_percentage_witness :
    "userId" ∈ testResultsColumns
    ∧ computePercentage 3 0 = 0
    ∧ computePercentage 3 3 * (3 : Rat) = (3 : Rat) * 100 :=
  ⟨(C6_amended_shape_and_percentage.2.1 "userId" (by decide) (by decide)),
    (C6_amended_shape_and_percentage.2.2 3 0).1 rfl,
    (C6_amended_shape_and_percentage.2.2 3 3).2 (by decide)⟩

/-- Counterexample to claim C2: the answer-mutation handler never holds "at
most one id" per question — selecting a second id for a question adds it
next to the first instead of replacing it (the handler does not inspect the
question's answer count, so this applies to single-select questions too). -/
theorem C2_counterexample_two_ids_held :
    selectionOf (handleAnswerSelect (handleAnswerSelect emptyAnswers "q" "a") "q" "b") "q"
      = ["a", "b"]
    ∧ ¬ (selectionOf
          (handleAnswerSelect (handleAnswerSelect emptyAnswers "q" "a") "q" "b") "q").length ≤ 1 := by
  exact ⟨rfl, by decide⟩

/-- Claim C2 as amended: `handleAnswerSelect` applies one uniform
multi-select toggle to every question regardless of its answer count:
selecting a new id while fewer than 3 are held appends it, keeping the
previously held ids (no last-write-wins replacement), so up to 3 ids can be
held even for a single-select question. -/
theorem C2_amended_uniform_toggle (m : AnswersMap) (q a : String)
    (hmem : a ∉ selectionOf m q) (hlen : (selectionOf m q).length < 3) :
    selectionOf (handleAnswerSelect m q a) q = selectionOf m q ++ [a] := by
  have hc : (currentArrayOf (m q)).contains a = false := by
    rw [Bool.eq_false_iff]
    intro hcontra
    exact hmem (List.elem_iff.mp hcontra)
  have hl : (currentArrayOf (m q) ++ [a]).length ≤ 3 := by
    rw [List.length_append, List.length_singleton]
    exact hlen
  have hstep : handleAnswerSelect m q a
      = setAnswer m q (UserAnswer.multiple (currentArrayOf (m q) ++ [a])) := by
    simp only [handleAnswerSelect]
    rw [if_neg (by simp [hc]; exact hmem), if_pos hl]
  calc selectionOf (handleAnswerSelect m q a) q
      = currentArrayOf (some (UserAnswer.multiple (currentArrayOf (m q) ++ [a]))) := by
        rw [hstep]; simp [selectionOf, setAnswer]
    _ = selectionOf m q ++ [a] := rfl

/-- After setting a question's value, that question's selection is the array
of the value just set. -/
theorem selectionOf_setAnswer_self (m : AnswersMap) (q : String) (v : UserAnswer) :
    selectionOf (setAnswer m q v) q = currentArrayOf (some v) := by
  simp [selectionOf, setAnswer]

/-- Any selection a single `handleAnswerSelect` produces keeps every
question's selection within 3 ids, provided it was within 3 before. -/
theorem handleAnswerSelect_length_le (m : AnswersMap) (q0 a : String)
    (h : ∀ q, (selectionOf m q).length ≤ 3) :
    ∀ q, (selectionOf (handleAnswerSelect m q0 a) q).length ≤ 3 := by
  intro q
  by_cases hq : q = q0
  · subst hq
    simp only [handleAnswerSelect]
    by_cases hc : (currentArrayOf (m q)).contains a = true
    · rw [if_pos hc, selectionOf_setAnswer_self]
      exact le_trans (List.length_filter_le _ _) (h q)
    · rw [if_neg hc]
      by_cases hl : (currentArrayOf (m q) ++ [a]).length ≤ 3
      · rw [if_pos hl, selectionOf_setAnswer_self]
        exact hl
      · rw [if_neg hl]
        exact h q
  · simp only [handleAnswerSelect]
    by_cases hc : (currentArrayOf (m q0)).contains a = true
    · rw [if_pos hc]
      simp only [selectionOf, setAnswer, if_neg hq]
      exact h q
    · rw [if_neg hc]
      by_cases hl : (currentArrayOf (m q0) ++ [a]).length ≤ 3
      · rw [if_pos hl]
        simp only [selectionOf, setAnswer, if_neg hq]
        exact h q
      · rw [if_neg hl]
        exact h q

/-- The 3-id bound survives any sequence of toggles. -/
theorem applyToggles_length_le (ops : List (String × String)) :
    ∀ m : AnswersMap, (∀ q, (selectionOf m q).length ≤ 3) →
      ∀ q, (selectionOf (applyToggles m ops) q).length ≤ 3 := by
  induction ops with
  | nil => intro m h q; exact h q
  | cons op rest ih =>
    intro m h q
    exact ih (handleAnswerSelect m op.fst op.snd)
      (handleAnswerSelect_length_le m op.fst op.snd h) q

/-- Claim C3: toggling an already-selected id removes it from the question's
selection; toggling a new id when 3 ids are already selected is a no-op that
leaves the whole answers map unchanged; and starting from the empty map no
sequence of toggles ever makes any question's selection exceed 3 ids. -/
theorem C3_toggle_cap_invariants :
    (∀ (ops : List (String × String)) (q : String),
        (selectionOf (applyToggles emptyAnswers ops) q).length ≤ 3)
    ∧ (∀ (m : AnswersMap) (q a : String), a ∈ selectionOf m q →
        a ∉ selectionOf (handleAnswerSelect m q a) q)
    ∧ (∀ (m : AnswersMap) (q a : String), a ∉ selectionOf m q →
        (selectionOf m q).length = 3 → handleAnswerSelect m q a = m) := by
  refine ⟨?_, ?_, ?_⟩
  · intro ops q
    exact applyToggles_length_le ops emptyAnswers (fun _ => by simp [selectionOf, emptyAnswers, currentArrayOf]) q
  · intro m q a hmem
    have hc : (currentArrayOf (m q)).contains a = true :=
      List.elem_iff.mpr hmem
    simp only [handleAnswerSelect, if_pos hc]
    rw [selectionOf_setAnswer_self]
    simp only [currentArrayOf]
    intro hcontra
    rcases List.mem_filter.mp hcontra with ⟨_, hne⟩
    simp at hne
  · intro m q a hmem hlen
    have hc : ¬ ((currentArrayOf (m q)).contains a = true) := by
      intro hcontra
      exact hmem (List.elem_iff.mp hcontra)
    have hl : ¬ ((currentArrayOf (m q) ++ [a]).length ≤ 3) := by
      rw [List.length_append, List.length_singleton]
      have : (currentArrayOf (m q)).length = 3 := hlen
      omega
    simp only [handleAnswerSelect, if_neg hc, if_neg hl]

/-- Witness for C3 at concrete toggle sequences. -/
theorem C3_toggle_cap_invariants_witness :
    (selectionOf (applyToggles emptyAnswers [("q", "a"), ("q", "b")]) "q").length ≤ 3
    ∧ "a" ∉ selectionOf (handleAnswerSelect (applyToggles emptyAnswers [("q", "a")]) "q" "a") "q"
    ∧ handleAnswerSelect
        (applyToggles emptyAnswers [("q", "a"), ("q", "b"), ("q", "c")]) "q" "d"
      = applyToggles emptyAnswers [("q", "a"), ("q", "b"), ("q", "c")] :=
  ⟨C3_toggle_cap_invariants.1 [("q", "a"), ("q", "b")] "q",
    C3_toggle_cap_invariants.2.1 _ "q" "a" (by decide),
    C3_toggle_cap_invariants.2.2 _ "q" "d" (by decide) (by decide)⟩

/-- Witness for C2 as amended: adding a second id to a question that holds
one keeps the first id. -/
theorem C2_amended_uniform_toggle_witness :
    "b" ∉ selectionOf (handleAnswerSelect emptyAnswers "q" "a") "q"
    ∧ (selectionOf (handleAnswerSelect emptyAnswers "q" "a") "q").length < 3
    ∧ selectionOf (handleAnswerSelect (handleAnswerSelect emptyAnswers "q" "a") "q" "b") "q"
        = selectionOf (handleAnswerSelect emptyAnswers "q" "a") "q" ++ ["b"] :=
  ⟨by decide, by decide,
    C2_amended_uniform_toggle (handleAnswerSelect emptyAnswers "q" "a") "q" "b"
      (by decide) (by decide)⟩

/-- Each event preserves the timer invariant (in test mode). -/
theorem timerStep_inv (s : TimerState) (e : TimerEvent) (h : TimerInv s) :
    TimerInv (timerStep false s e) := by
  obtain ⟨h0, hsc, hia, hup, hup1⟩ := h
  cases e with
  | effectRun =>
    by_cases hst : s.timerStarted
    · simp only [timerStep, if_pos hst]
      exact ⟨h0, hsc, hia, hup, hup1⟩
    · have hup0 : s.timeUpCalls = 0 := by
        by_contra hne
        exact hst (hup1 (by omega)).2
      simp only [timerStep, if_neg hst, Bool.false_eq_true, if_false]
      refine ⟨h0, ?_, fun _ => rfl, hup, ?_⟩
      · simp [hsc, hst]
      · intro hge
        rw [hup0] at hge
        omega
  | cleanupRun =>
    refine ⟨h0, hsc, ?_, hup, ?_⟩
    · intro hcontra
      simp [timerStep] at hcontra
    · intro hge
      exact ⟨rfl, (hup1 hge).2⟩
  | tick =>
    have htv : 0 ≤ tickValue s.timeLeft := by
      by_cases hle : s.timeLeft ≤ 1
      · rw [tickValue, if_pos hle]
      · rw [tickValue, if_neg hle]; omega
    by_cases hact : s.intervalActive = true
    · have hst : s.timerStarted = true := hia hact
      have hup0 : s.timeUpCalls = 0 := by
        by_contra hne
        have hdead := (hup1 (by omega)).1
        rw [hdead] at hact
        exact Bool.false_ne_true hact
      by_cases hz : tickValue s.timeLeft = 0
      · simp only [timerStep, hact, if_true, if_pos hz]
        refine ⟨?_, ?_, ?_, ?_, ?_⟩
        · exact htv
        · exact hsc
        · intro hcontra
          cases hcontra
        · show s.timeUpCalls + 1 ≤ 1
          omega
        · intro _
          exact ⟨rfl, hst⟩
      · simp only [timerStep, hact, if_true, if_neg hz]
        refine ⟨htv, hsc, ?_, hup, ?_⟩
        · intro _
          exact hst
        · intro hge
          have hlt : ¬ (1 ≤ s.timeUpCalls) := by omega
          exact absurd hge hlt
    · have hfalse : s.intervalActive = false := by
        cases hv : s.intervalActive
        · rfl
        · exact absurd hv hact
      simp only [timerStep, hfalse, Bool.false_eq_true, if_false]
      exact ⟨h0, hsc, hia, hup, hup1⟩

/-- Running any event sequence preserves the timer invariant. -/
theorem runTimer_inv (evs : List TimerEvent) :
    ∀ s : TimerState, TimerInv s → TimerInv (runTimer false evs s) := by
  induction evs with
  | nil => intro s h; exact h
  | cons e rest ih =>
    intro s h
    exact ih (timerStep false s e) (timerStep_inv s e h)

/-- The guard ref `timerStartedRef` stays set once set. -/
theorem timerStep_started_mono (s : TimerState) (e : TimerEvent)
    (h : s.timerStarted = true) : (timerStep false s e).timerStarted = true := by
  cases e with
  | effectRun => simp [timerStep, h]
  | cleanupRun => simpa [timerStep] using h
  | tick =>
    by_cases hact : s.intervalActive = true
    · by_cases hz : tickValue s.timeLeft = 0
      · simp only [timerStep, hact, if_true, if_pos hz]
        exact h
      · simp only [timerStep, hact, if_true, if_neg hz]
        exact h
    · simpa [timerStep, hact] using h

/-- The guard ref stays set across any run. -/
theorem runTimer_started_mono (evs : List TimerEvent) :
    ∀ s : TimerState, s.timerStarted = true →
      (runTimer false evs s).timerStarted = true := by
  induction evs with
  | nil => intro s h; exact h
  | cons e rest ih =>
    intro s h
    exact ih (timerStep false s e) (timerStep_started_mono s e h)

/-- The first effect run sets the guard ref. -/
theorem timerStep_effectRun_started (s : TimerState) :
    (timerStep false s TimerEvent.effectRun).timerStarted = true := by
  by_cases hst : s.timerStarted
  · simpa [timerStep, hst] using hst
  · simp [timerStep, hst]

/-- After a run containing at least one effect execution the guard ref is
set. -/
theorem runTimer_effectRun_started (evs : List TimerEvent)
    (hmem : TimerEvent.effectRun ∈ evs) :
    ∀ s : TimerState, (runTimer false evs s).timerStarted = true := by
  induction evs with
  | nil => cases hmem
  | cons e rest ih =>
    intro s
    rcases List.mem_cons.mp hmem with he | hrest
    · subst he
      exact runTimer_started_mono rest _ (timerStep_effectRun_started s)
    · exact ih hrest (timerStep false s e)

/-- Claim C4: within one mounted (non-review) test session the countdown is
started at most once — and exactly once as soon as the timer effect has run
at all, no matter how many re-renders re-run it; each tick of a live
interval with positive time decrements `timeLeft` by exactly one;
`timeLeft` never goes below 0; and reaching 0 schedules the time-up handler
exactly once — the tick that reaches 0 increments the handler count and
kills the interval, and over any event sequence the handler is scheduled at
most once. -/
theorem C4_timer_single_start_and_timeup (evs : List TimerEvent) (t0 : Int)
    (h0 : 0 ≤ t0) :
    (runTimer false evs (initTimer t0)).startCount ≤ 1
    ∧ 0 ≤ (runTimer false evs (initTimer t0)).timeLeft
    ∧ (runTimer false evs (initTimer t0)).timeUpCalls ≤ 1
    ∧ (TimerEvent.effectRun ∈ evs →
        (runTimer false evs (initTimer t0)).startCount = 1)
    ∧ (∀ t : TimerState, t.intervalActive = true → 1 ≤ t.timeLeft →
        (timerStep false t TimerEvent.tick).timeLeft = t.timeLeft - 1)
    ∧ (∀ t : TimerState, t.intervalActive = true → t.timeLeft ≤ 1 →
        (timerStep false t TimerEvent.tick).timeUpCalls = t.timeUpCalls + 1
        ∧ (timerStep false t TimerEvent.tick).intervalActive = false
        ∧ (timerStep false t TimerEvent.tick).timeLeft = 0) := by
  have hinit : TimerInv (initTimer t0) := by
    refine ⟨h0, rfl, ?_, ?_, ?_⟩
    · intro hcontra
      cases hcontra
    · show (0 : Nat) ≤ 1
      omega
    · intro hge
      simp [initTimer] at hge
  have hinv := runTimer_inv evs (initTimer t0) hinit
  obtain ⟨ht0, hsc, hia, hup, hup1⟩ := hinv
  refine ⟨?_, ht0, hup, ?_, ?_, ?_⟩
  · rw [hsc]
    by_cases h : (runTimer false evs (initTimer t0)).timerStarted <;> simp [h]
  · intro hmem
    rw [hsc, runTimer_effectRun_started evs hmem (initTimer t0), if_pos rfl]
  · intro t hact hpos
    have htv : tickValue t.timeLeft = t.timeLeft - 1 := by
      by_cases hle : t.timeLeft ≤ 1
      · have h1 : t.timeLeft = 1 := le_antisymm hle hpos
        rw [tickValue, if_pos hle, h1]
        norm_num
      · rw [tickValue, if_neg hle]
    simp only [timerStep, hact, if_true, htv]
    split <;> rfl
  · intro t hact hle
    have hz : tickValue t.timeLeft = 0 := by
      rw [tickValue, if_pos hle]
    refine ⟨?_, ?_, ?_⟩ <;> simp [timerStep, hact, hz]

/-- Witness for C4: a session that mounts, re-runs its effect twice and
ticks twice from 2 seconds left — the interval is started once, the handler
fires once, and time stops at 0. -/
theorem C4_timer_single_start_and_timeup_witness :
    (0 : Int) ≤ 2
    ∧ (runTimer false
        [TimerEvent.effectRun, TimerEvent.effectRun, TimerEvent.tick, TimerEvent.tick]
        (initTimer 2)).startCount ≤ 1
    ∧ (runTimer false
        [TimerEvent.effectRun, TimerEvent.effectRun, TimerEvent.tick, TimerEvent.tick]
        (initTimer 2)).timeUpCalls ≤ 1
    ∧ (runTimer false
        [TimerEvent.effectRun, TimerEvent.effectRun, TimerEvent.tick, TimerEvent.tick]
        (initTimer 2)).startCount = 1 :=
  ⟨by decide,
    (C4_timer_single_start_and_timeup _ 2 (by decide)).1,
    (C4_timer_single_start_and_timeup _ 2 (by decide)).2.2.1,
    (C4_timer_single_start_and_timeup _ 2 (by decide)).2.2.2.1 (by decide)⟩

/-- The multi-choice scoring condition holds exactly when the submitted id
set coincides with the set of correct ids: every correct answer is
selected, and every selected answer is correct. Requires the submitted ids
to name answers of the question and the question's answer ids to be
distinct (they are generated as unique uuids). -/
theorem multiChoiceCond_iff (q : Question) (ids : List String)
    (hnd : (q.answers.map Answer.id).Nodup)
    (hids : ∀ x ∈ ids, x ∈ q.answers.map Answer.id) :
    (((q.answers.filter (fun a => a.isCorrect)).all (fun a => ids.contains a.id)
        && (q.answers.filter (fun a => ids.contains a.id)).all (fun a => a.isCorrect)) = true)
      ↔ (∀ x, x ∈ ids ↔ x ∈ correctIds q) := by
  rw [Bool.and_eq_true, List.all_eq_true, List.all_eq_true]
  constructor
  · rintro ⟨hA, hB⟩ x
    constructor
    · intro hx
      obtain ⟨a, ha, rfl⟩ := List.mem_map.mp (hids x hx)
      have hsel : a ∈ q.answers.filter (fun a => ids.contains a.id) :=
        List.mem_filter.mpr ⟨ha, List.elem_iff.mpr hx⟩
      have hcor : a.isCorrect = true := hB a hsel
      exact List.mem_map.mpr ⟨a, List.mem_filter.mpr ⟨ha, hcor⟩, rfl⟩
    · intro hx
      obtain ⟨a, hafil, rfl⟩ := List.mem_map.mp hx
      exact List.elem_iff.mp (hA a hafil)
  · intro hEq
    constructor
    · intro a hafil
      have hcid : a.id ∈ correctIds q := List.mem_map.mpr ⟨a, hafil, rfl⟩
      exact List.elem_iff.mpr ((hEq a.id).mpr hcid)
    · intro a hasel
      rcases List.mem_filter.mp hasel with ⟨ha, hcont⟩
      have hin : a.id ∈ ids := List.elem_iff.mp hcont
      have hcid : a.id ∈ correctIds q := (hEq a.id).mp hin
      obtain ⟨b, hbfil, hbid⟩ := List.mem_map.mp hcid
      rcases List.mem_filter.mp hbfil with ⟨hb, hbcor⟩
      have hab : a = b := List.inj_on_of_nodup_map hnd ha hb hbid.symm
      rw [hab]
      exact hbcor

/-- Claim C1: for a multiple-choice question (8 answers, exactly 3 of them
correct, answer ids distinct) and a submitted selection of that question's
answer ids, the (spec-modelled) Scoring Engine awards earned 2 exactly when
the selection set equals the set of correct ids; every other selection —
proper subset, superset within the question, or one containing an incorrect
id — earns 0, with no partial credit. -/
theorem C1_multi_choice_all_or_nothing (q : Question) (ids : List String)
    (h8 : q.answers.length = 8)
    (h3 : (q.answers.filter (fun a => a.isCorrect)).length = 3)
    (hnd : (q.answers.map Answer.id).Nodup)
    (hids : ∀ x ∈ ids, x ∈ q.answers.map Answer.id) :
    (scoreQuestion q (some (UserAnswer.multiple ids)) = ScoreOutcome.ok 2 2
      ↔ (∀ x, x ∈ ids ↔ x ∈ correctIds q))
    ∧ (¬ (∀ x, x ∈ ids ↔ x ∈ correctIds q)
        → scoreQuestion q (some (UserAnswer.multiple ids)) = ScoreOutcome.ok 0 2) := by
  have hne : ¬ (q.answers.length = 0) := by omega
  have hsc : scoreQuestion q (some (UserAnswer.multiple ids))
      = (if ((q.answers.filter (fun a => a.isCorrect)).all (fun a => ids.contains a.id)
            && (q.answers.filter (fun a => ids.contains a.id)).all (fun a => a.isCorrect)) = true
         then ScoreOutcome.ok 2 2 else ScoreOutcome.ok 0 2) := by
    simp only [scoreQuestion, if_neg hne, if_pos h8]
  have hcond := multiChoiceCond_iff q ids hnd hids
  constructor
  · rw [hsc]
    by_cases hC : ((q.answers.filter (fun a => a.isCorrect)).all (fun a => ids.contains a.id)
        && (q.answers.filter (fun a => ids.contains a.id)).all (fun a => a.isCorrect)) = true
    · rw [if_pos hC]
      exact iff_of_true rfl (hcond.mp hC)
    · rw [if_neg hC]
      refine iff_of_false ?_ (fun hEq => hC (hcond.mpr hEq))
      intro hcontra
      cases hcontra
  · intro hnotEq
    rw [hsc, if_neg (fun hC => hnotEq (hcond.mp hC))]

/-- Witness for C1: submitting exactly the 3 correct ids of `q8` earns 2,
and submitting only 2 of them earns 0. -/
theorem C1_multi_choice_all_or_nothing_witness :
    q8.answers.length = 8
    ∧ (q8.answers.filter (fun a => a.isCorrect)).length = 3
    ∧ scoreQuestion q8 (some (UserAnswer.multiple ["x", "y", "z"])) = ScoreOutcome.ok 2 2
    ∧ scoreQuestion q8 (some (UserAnswer.multiple ["x", "y"])) = ScoreOutcome.ok 0 2 :=
  ⟨rfl, rfl,
    (C1_multi_choice_all_or_nothing q8 ["x", "y", "z"] rfl rfl (by decide)
      (by decide)).1.mpr (fun x => Iff.rfl),
    (C1_multi_choice_all_or_nothing q8 ["x", "y"] rfl rfl (by decide)
      (by decide)).2 (by
        intro hEq
        have := (hEq "z").mpr (by decide)
        simp at this)⟩

end Qadam
